import Mathlib

/-!
# MouseState click/double-click tracker: a shallow embedding

This file embeds the `window.MouseState` component of the engine (the
mouse click/double-click state machine) in Lean, faithful to the Go
source, and proves the spec's claims about it.

Modelling decisions, all matching the Go semantics:

* `time.Time` and `time.Duration` are embedded as `Int` (nanoseconds);
  `t.Add(d)` is `t + d` and `a.Before(b)` is `a < b` (strict).
* The Go map `map[MouseButton]*mouseButtonState` is embedded as a
  function `MouseButton → Option mouseButtonState`: a lookup of an
  absent key in Go returns the zero value `nil` of the pointer type,
  and any subsequent field access through it panics.  Accordingly the
  event handlers and queries, which dereference `ms.states[b]` without
  a nil check, are embedded as `Except`-valued functions where
  `.error s` models a nil-pointer panic (carrying the state of the
  tracker at the moment of the panic, since field writes performed
  before the panic persist in Go).
* `MouseButton` is declared outside this excerpt.  Modelled from the
  spec: button identities come from a closed enumerable set that is
  larger than the tracked set (left, right, middle); we use `Nat`,
  with the three tracked identities 0, 1, 2 and `MouseButton4 = 3` as
  a representative untracked identity.
-/

abbrev MouseButton := Nat

def MouseButtonLeft : MouseButton := 0
def MouseButtonRight : MouseButton := 1
def MouseButtonMiddle : MouseButton := 2

/-- A button identity outside the tracked set (the engine's window
package declares more buttons than the three tracked ones). -/
def MouseButton4 : MouseButton := 3

/-- The event payload delivered to the handlers (`mev := ev.(*MouseEvent)`);
only the `Button` field is read by this component. -/
structure MouseEvent where
  Button : MouseButton
deriving Repr, DecidableEq

/-- `const DefaultDoubleClickDuration = 300` (millis). -/
def DefaultDoubleClickDuration : Int := 300

/-- `time.Millisecond` in nanoseconds. -/
def Millisecond : Int := 1000000

/-- `mouseButtonState`: the per-button record (`clickCount`, `lastClick`). -/
structure mouseButtonState where
  clickCount : Int
  lastClick : Int
deriving Repr, DecidableEq

/-- `func (s *mouseButtonState) doubleClicked() bool
      { return s.clickCount == 2 || s.clickCount == -2 }` -/
def mouseButtonState.doubleClicked (s : mouseButtonState) : Bool :=
  s.clickCount == 2 || s.clickCount == -2

/-- `MouseState` minus the `win` field (the window reference is only used
for subscription bookkeeping, modelled separately by `Dispatcher`). -/
structure MouseState where
  lastButton : MouseButton
  DoubleClickDuration : Int
  states : MouseButton → Option mouseButtonState

/-- Writing `ms.states[b] = st` through the map's pointer (the entry is
known to exist at every write site in the source). -/
def MouseState.setState (ms : MouseState) (b : MouseButton)
    (st : mouseButtonState) : MouseState :=
  { ms with states := fun x => if x = b then some st else ms.states x }

/-- The state part of `NewMouseState`: `DoubleClickDuration` is 300 ms,
and the map eagerly holds the three tracked buttons with `clickCount` 0
and `lastClick` the construction time `t0`.  (`ms := new(MouseState)`
zero-initialises `lastButton`, and `MouseButtonLeft` is the zero value.)
The subscription side effect is modelled by `newMouseStateSubscribe`. -/
def NewMouseState (t0 : Int) : MouseState where
  lastButton := MouseButtonLeft
  DoubleClickDuration := DefaultDoubleClickDuration * Millisecond
  states := fun b =>
    if b = MouseButtonLeft ∨ b = MouseButtonRight ∨ b = MouseButtonMiddle then
      some { clickCount := 0, lastClick := t0 }
    else
      none

/-- `func (ms *MouseState) Pressed(b MouseButton) bool
      { return ms.states[b].clickCount > 0 }`
For a button absent from the map the Go lookup yields `nil` and the
field access panics (`.error ()`). -/
def MouseState.Pressed (ms : MouseState) (b : MouseButton) : Except Unit Bool :=
  match ms.states b with
  | none => .error ()
  | some st => .ok (decide (st.clickCount > 0))

/-- `LeftDoubleClicked`: `ms.lastButton == MouseButtonLeft &&
ms.states[MouseButtonLeft].doubleClicked()`; Go `&&` short-circuits, so
the map is dereferenced only when the first conjunct holds. -/
def MouseState.LeftDoubleClicked (ms : MouseState) : Except Unit Bool :=
  if ms.lastButton = MouseButtonLeft then
    match ms.states MouseButtonLeft with
    | none => .error ()
    | some st => .ok st.doubleClicked
  else
    .ok false

/-- `RightDoubleClicked`, as `LeftDoubleClicked`. -/
def MouseState.RightDoubleClicked (ms : MouseState) : Except Unit Bool :=
  if ms.lastButton = MouseButtonRight then
    match ms.states MouseButtonRight with
    | none => .error ()
    | some st => .ok st.doubleClicked
  else
    .ok false

/-- `MiddleDoubleClicked`, as `LeftDoubleClicked`. -/
def MouseState.MiddleDoubleClicked (ms : MouseState) : Except Unit Bool :=
  if ms.lastButton = MouseButtonMiddle then
    match ms.states MouseButtonMiddle with
    | none => .error ()
    | some st => .ok st.doubleClicked
  else
    .ok false

/-- `onMouseUp`: if `ms.states[mev.Button].clickCount > 0` then
`ms.states[mev.Button].clickCount *= -1`.  The map dereference has no
nil check, so an event for an absent button panics before any write. -/
def MouseState.onMouseUp (ms : MouseState) (mev : MouseEvent) :
    Except MouseState MouseState :=
  match ms.states mev.Button with
  | none => .error ms
  | some st =>
    if st.clickCount > 0 then
      .ok (ms.setState mev.Button { st with clickCount := st.clickCount * -1 })
    else
      .ok ms

/-- `onMouseDown`: records `ms.lastButton = mev.Button` first, then
branches on `ms.states[mev.Button].clickCount`:
`== 0` → count 1, lastClick now; `== -1` → if
`lastClick.Add(DoubleClickDuration).Before(now)` then count 1 and
lastClick now, else count 2 (lastClick untouched); otherwise count 1
and lastClick now.  `now` is sampled on entry (`now := time.Now()`);
the map dereference for an absent button panics after the write to
`lastButton`. -/
def MouseState.onMouseDown (ms : MouseState) (mev : MouseEvent) (now : Int) :
    Except MouseState MouseState :=
  let ms1 : MouseState := { ms with lastButton := mev.Button }
  match ms1.states mev.Button with
  | none => .error ms1
  | some st =>
    if st.clickCount = 0 then
      .ok (ms1.setState mev.Button { st with clickCount := 1, lastClick := now })
    else if st.clickCount = -1 then
      if st.lastClick + ms1.DoubleClickDuration < now then
        .ok (ms1.setState mev.Button { st with clickCount := 1, lastClick := now })
      else
        .ok (ms1.setState mev.Button { st with clickCount := 2 })
    else
      .ok (ms1.setState mev.Button { st with clickCount := 1, lastClick := now })

/-- One raw input event: a button-down (the handler samples `now` on
entry) or a button-up. -/
inductive Ev where
  | down (b : MouseButton) (now : Int)
  | up (b : MouseButton)
deriving Repr, DecidableEq

/-- Dispatch one event to the corresponding handler. -/
def MouseState.step (ms : MouseState) : Ev → Except MouseState MouseState
  | .down b now => ms.onMouseDown ⟨b⟩ now
  | .up b => ms.onMouseUp ⟨b⟩

/-- Run a sequence of events; a panic (`.error`) aborts the run. -/
def MouseState.run (ms : MouseState) : List Ev → Except MouseState MouseState
  | [] => .ok ms
  | e :: es =>
    match ms.step e with
    | .ok ms' => ms'.run es
    | .error s => .error s

/-- The state a handler leaves behind, whether it returns (`.ok`) or
panics (`.error`, carrying the state at the moment of the panic). -/
def stateOf (r : Except MouseState MouseState) : MouseState :=
  match r with
  | .ok s => s
  | .error s => s

/-! ## The event source's subscription registry

The engine's `core.Dispatcher` (`SubscribeID` / `UnsubscribeID`) is not
part of this excerpt; only its callers are.  Modelled from the spec:
the event source keeps a registry of handlers keyed by (event kind,
identity token); `SubscribeWithIdentity` registers a handler under a
token and `UnsubscribeWithIdentity` removes the entries whose kind and
token both match.  Identity tokens in the source are Go pointers
(`&ms`, the address of a local variable of the enclosing function
activation); we model addresses as `Nat`.  The address of
`NewMouseState`'s local `ms` and the address of `Dispose`'s local `ms`
are addresses of two distinct live variables, hence distinct. -/

inductive WinEventName where
  | mouseUp
  | mouseDown
deriving Repr, DecidableEq

def OnMouseUp : WinEventName := .mouseUp
def OnMouseDown : WinEventName := .mouseDown

/-- Modelled from the spec: the subscription registry of the event
source, one entry per registered handler. -/
structure Dispatcher where
  subs : List (WinEventName × Nat)
deriving Repr, DecidableEq

/-- Modelled from the spec: `SubscribeWithIdentity` adds an entry for
the event kind under the identity token. -/
def Dispatcher.subscribeID (d : Dispatcher) (ev : WinEventName) (tok : Nat) :
    Dispatcher :=
  { subs := d.subs ++ [(ev, tok)] }

/-- Modelled from the spec: `UnsubscribeWithIdentity` removes the
entries whose event kind and identity token both match. -/
def Dispatcher.unsubscribeID (d : Dispatcher) (ev : WinEventName) (tok : Nat) :
    Dispatcher :=
  { subs := d.subs.filter fun p => !(p.1 == ev && p.2 == tok) }

/-- The subscription side of `NewMouseState`:
`ms.win.SubscribeID(OnMouseUp, &ms, ms.onMouseUp)` then
`ms.win.SubscribeID(OnMouseDown, &ms, ms.onMouseDown)`, where both
occurrences of `&ms` are the address `amsNew` of `NewMouseState`'s
local variable `ms`. -/
def newMouseStateSubscribe (d : Dispatcher) (amsNew : Nat) : Dispatcher :=
  (d.subscribeID OnMouseUp amsNew).subscribeID OnMouseDown amsNew

/-- `Dispose`: `ms.win.UnsubscribeID(OnMouseUp, &ms)` then
`ms.win.UnsubscribeID(OnMouseDown, &ms)`, where `&ms` is the address
`amsDispose` of `Dispose`'s own local receiver variable `ms` — a
different variable from `NewMouseState`'s, so a different address. -/
def Dispose (d : Dispatcher) (amsDispose : Nat) : Dispatcher :=
  (d.unsubscribeID OnMouseUp amsDispose).unsubscribeID OnMouseDown amsDispose

/-- The spec's `DoubleClicked(buttonID)` query for the tracked
identities: dispatches to the source's three per-button accessors. -/
def MouseState.DoubleClicked (ms : MouseState) (b : MouseButton) :
    Except Unit Bool :=
  if b = MouseButtonLeft then ms.LeftDoubleClicked
  else if b = MouseButtonRight then ms.RightDoubleClicked
  else ms.MiddleDoubleClicked

/-- The spec's `onButtonDown` transition table, as a predicate on the
input state `ms`, addressed button `b` with current record `st`, and
the event time `now`: the handler returns normally, records the active
button, and updates the addressed entry per the table rows. -/
def DownTable (ms : MouseState) (b : MouseButton) (now : Int)
    (st : mouseButtonState) : Prop :=
  ∃ ms', ms.onMouseDown ⟨b⟩ now = .ok ms' ∧
    ms'.lastButton = b ∧
    (st.clickCount = 0 → ms'.states b = some ⟨1, now⟩) ∧
    (st.clickCount = -1 → ¬(st.lastClick + ms.DoubleClickDuration < now) →
      ms'.states b = some ⟨2, st.lastClick⟩) ∧
    (st.clickCount = -1 → st.lastClick + ms.DoubleClickDuration < now →
      ms'.states b = some ⟨1, now⟩) ∧
    (st.clickCount = -2 ∨ st.clickCount = 1 ∨ st.clickCount = 2 →
      ms'.states b = some ⟨1, now⟩)

/-- A state whose left button reads phase -2 from a stale sequence
while the right button was the last active one. -/
def staleMs : MouseState :=
  { (NewMouseState 0).setState MouseButtonLeft ⟨-2, 0⟩ with
      lastButton := MouseButtonRight }

/-- Every phase stored in the map lies in {-2, -1, 0, 1, 2}. -/
def phaseOK (ms : MouseState) : Prop :=
  ∀ b st, ms.states b = some st →
    st.clickCount = -2 ∨ st.clickCount = -1 ∨ st.clickCount = 0 ∨
      st.clickCount = 1 ∨ st.clickCount = 2

/-- Spec scenario 2 with t0 = 0 and the default 300 ms window:
down(A, t0), up(A, t0+10ms), down(A, t0+100ms) for A the left button
(the up handler reads no time from its event). -/
def scenarioDouble : Except MouseState MouseState :=
  (NewMouseState 0).run
    [Ev.down MouseButtonLeft 0, Ev.up MouseButtonLeft,
      Ev.down MouseButtonLeft (100 * Millisecond)]

/-- Spec scenario 3: scenario 2 continued by up(A, t0+150ms). -/
def scenarioDoubleUp : Except MouseState MouseState :=
  (NewMouseState 0).run
    [Ev.down MouseButtonLeft 0, Ev.up MouseButtonLeft,
      Ev.down MouseButtonLeft (100 * Millisecond), Ev.up MouseButtonLeft]

/-- Spec scenario 5: down(A, t0), up(A), down(B, t0+600ms), up(B) on a
fresh tracker, A the left and B the right button. -/
def scenarioCross : Except MouseState MouseState :=
  (NewMouseState 0).run
    [Ev.down MouseButtonLeft 0, Ev.up MouseButtonLeft,
      Ev.down MouseButtonRight (600 * Millisecond), Ev.up MouseButtonRight]

/-! ## Basic lemmas about the embedding -/

theorem setState_states (ms : MouseState) (b : MouseButton)
    (st : mouseButtonState) (b' : MouseButton) :
    (ms.setState b st).states b' = if b' = b then some st else ms.states b' := rfl

theorem setState_same (ms : MouseState) (b : MouseButton) (st : mouseButtonState) :
    (ms.setState b st).states b = some st := by
  rw [setState_states, if_pos rfl]

theorem setState_other (ms : MouseState) (b : MouseButton) (st : mouseButtonState)
    (b' : MouseButton) (h : b' ≠ b) :
    (ms.setState b st).states b' = ms.states b' := by
  rw [setState_states, if_neg h]

theorem setState_lastButton (ms : MouseState) (b : MouseButton)
    (st : mouseButtonState) : (ms.setState b st).lastButton = ms.lastButton := rfl

theorem setState_duration (ms : MouseState) (b : MouseButton)
    (st : mouseButtonState) :
    (ms.setState b st).DoubleClickDuration = ms.DoubleClickDuration := rfl

/-- Closed form of `onMouseDown` on a button present in the map: the
result is `ok`, `lastButton` is set, and the addressed entry becomes
`⟨2, lastClick⟩` exactly when the count was `-1` and the window has not
expired, and `⟨1, now⟩` otherwise. -/
theorem onMouseDown_eq (ms : MouseState) (mev : MouseEvent) (now : Int)
    (st : mouseButtonState) (h : ms.states mev.Button = some st) :
    ms.onMouseDown mev now =
      .ok (({ ms with lastButton := mev.Button }).setState mev.Button
        (if st.clickCount = -1 ∧ ¬(st.lastClick + ms.DoubleClickDuration < now)
         then { st with clickCount := 2 }
         else { st with clickCount := 1, lastClick := now })) := by
  unfold MouseState.onMouseDown
  show (match ms.states mev.Button with
    | none => Except.error { ms with lastButton := mev.Button }
    | some st => _) = _
  rw [h]
  by_cases h0 : st.clickCount = 0
  · have : ¬(st.clickCount = -1 ∧ ¬(st.lastClick + ms.DoubleClickDuration < now)) := by
      rintro ⟨h1, -⟩; omega
    simp only [if_pos h0, if_neg this]
  · by_cases h1 : st.clickCount = -1
    · by_cases h2 : st.lastClick + ms.DoubleClickDuration < now
      · have : ¬(st.clickCount = -1 ∧ ¬(st.lastClick + ms.DoubleClickDuration < now)) := by
          rintro ⟨-, h3⟩; exact h3 h2
        simp only [if_neg h0, if_pos h1, if_pos h2, if_neg this]
      · simp only [if_neg h0, if_pos h1, if_neg h2, if_pos (And.intro h1 h2)]
    · have : ¬(st.clickCount = -1 ∧ ¬(st.lastClick + ms.DoubleClickDuration < now)) := by
        rintro ⟨h2, -⟩; exact h1 h2
      simp only [if_neg h0, if_neg h1, if_neg this]

/-- Closed form of `onMouseUp` on a button present in the map. -/
theorem onMouseUp_eq (ms : MouseState) (mev : MouseEvent)
    (st : mouseButtonState) (h : ms.states mev.Button = some st) :
    ms.onMouseUp mev =
      .ok (if st.clickCount > 0
        then ms.setState mev.Button { st with clickCount := st.clickCount * -1 }
        else ms) := by
  unfold MouseState.onMouseUp
  rw [h]
  by_cases hpos : st.clickCount > 0
  · simp only [if_pos hpos]
  · simp only [if_neg hpos]

/-- C1: `onButtonDown` follows the spec's transition table for every
tracked button: from phase 0 it goes to 1 stamping `now`; from -1
within the window (boundary included, since the Go test
`lastClick.Add(window).Before(now)` is strict) it goes to 2 leaving
`lastClickTime` unchanged; from -1 with the window expired, and from
-2, 1 or 2, it goes to 1 stamping `now`. -/
theorem onMouseDown_follows_table (ms : MouseState) (b : MouseButton)
    (now : Int) (st : mouseButtonState) (h : ms.states b = some st) :
    DownTable ms b now st := by
  refine ⟨_, onMouseDown_eq ms ⟨b⟩ now st h, rfl, ?_, ?_, ?_, ?_⟩
  · intro h0
    rw [setState_same]
    rw [if_neg (by rintro ⟨h1, -⟩; omega)]
  · intro h1 h2
    rw [setState_same, if_pos (And.intro h1 h2)]
  · intro h1 h2
    rw [setState_same, if_neg (by rintro ⟨-, h3⟩; exact h3 h2)]
  · intro h12
    rw [setState_same, if_neg (by rintro ⟨h1, -⟩; omega)]

/-- Witness for C1: on a fresh tracker the left button sits at phase 0
with `lastClickTime` 0, and the table applies to a down at time 5. -/
theorem onMouseDown_follows_table_witness :
    (NewMouseState 0).states MouseButtonLeft = some ⟨0, 0⟩ ∧
      DownTable (NewMouseState 0) MouseButtonLeft 5 ⟨0, 0⟩ :=
  ⟨rfl, onMouseDown_follows_table (NewMouseState 0) MouseButtonLeft 5 ⟨0, 0⟩ rfl⟩

/-- C2: `onButtonUp` on a tracked button negates a positive phase and
otherwise returns the tracker unchanged; on a fresh tracker (phase 0)
it is a no-op, after which `Pressed` and `DoubleClicked` for that
button are false and the handler returned normally rather than
erring. -/
theorem onMouseUp_negates_or_noop (ms : MouseState) (b : MouseButton)
    (st : mouseButtonState) (t0 : Int) (h : ms.states b = some st)
    (hb : b = MouseButtonLeft ∨ b = MouseButtonRight ∨ b = MouseButtonMiddle) :
    ms.onMouseUp ⟨b⟩ = .ok (if st.clickCount > 0
        then ms.setState b { st with clickCount := st.clickCount * -1 }
        else ms) ∧
    (NewMouseState t0).onMouseUp ⟨b⟩ = .ok (NewMouseState t0) ∧
    (NewMouseState t0).Pressed b = .ok false ∧
    (NewMouseState t0).DoubleClicked b = .ok false := by
  have hfresh : (NewMouseState t0).states b = some ⟨0, t0⟩ := by
    rcases hb with hb|hb|hb <;> subst hb <;> rfl
  refine ⟨onMouseUp_eq ms ⟨b⟩ st h, ?_, ?_, ?_⟩
  · rw [onMouseUp_eq (NewMouseState t0) ⟨b⟩ ⟨0, t0⟩ hfresh]
    norm_num
  · unfold MouseState.Pressed
    rw [hfresh]
    rfl
  · rcases hb with hb|hb|hb <;> subst hb <;> rfl

/-- Witness for C2: an up event for the left button on a fresh tracker
returns it unchanged. -/
theorem onMouseUp_negates_or_noop_witness :
    (NewMouseState 0).states MouseButtonLeft = some ⟨0, 0⟩ ∧
      (NewMouseState 0).onMouseUp ⟨MouseButtonLeft⟩ = .ok (NewMouseState 0) :=
  ⟨rfl, (onMouseUp_negates_or_noop (NewMouseState 0) MouseButtonLeft ⟨0, 0⟩ 0 rfl
    (Or.inl rfl)).2.1⟩

/-- C3: for a tracked button b present in the map, the double-click
query returns true iff b is the last active button and b's phase is 2
or -2; when b is not the last active button it returns false whatever
b's phase reads. -/
theorem doubleClicked_iff (ms : MouseState) (b : MouseButton)
    (st : mouseButtonState)
    (hb : b = MouseButtonLeft ∨ b = MouseButtonRight ∨ b = MouseButtonMiddle)
    (h : ms.states b = some st) :
    ms.DoubleClicked b =
      .ok (decide (ms.lastButton = b) &&
        (st.clickCount == 2 || st.clickCount == -2)) := by
  rcases hb with hb|hb|hb <;> subst hb
  · unfold MouseState.DoubleClicked MouseState.LeftDoubleClicked
    rw [if_pos rfl]
    by_cases hl : ms.lastButton = MouseButtonLeft
    · rw [if_pos hl, h]
      simp [mouseButtonState.doubleClicked, hl]
    · rw [if_neg hl]
      simp [hl]
  · unfold MouseState.DoubleClicked MouseState.RightDoubleClicked
    rw [if_neg (by decide), if_pos rfl]
    by_cases hl : ms.lastButton = MouseButtonRight
    · rw [if_pos hl, h]
      simp [mouseButtonState.doubleClicked, hl]
    · rw [if_neg hl]
      simp [hl]
  · unfold MouseState.DoubleClicked MouseState.MiddleDoubleClicked
    rw [if_neg (by decide), if_neg (by decide)]
    by_cases hl : ms.lastButton = MouseButtonMiddle
    · rw [if_pos hl, h]
      simp [mouseButtonState.doubleClicked, hl]
    · rw [if_neg hl]
      simp [hl]

/-- Witness for C3: on `staleMs` the left button's phase is -2, yet its
double-click query is false because the right button was last active. -/
theorem doubleClicked_iff_witness :
    staleMs.states MouseButtonLeft = some ⟨-2, 0⟩ ∧
      staleMs.DoubleClicked MouseButtonLeft = .ok false :=
  ⟨rfl, Eq.trans
    (doubleClicked_iff staleMs MouseButtonLeft ⟨-2, 0⟩ (Or.inl rfl) rfl) rfl⟩

/-- Counterexample to C4: querying a fresh tracker for an untracked
button does not return false — the Go map lookup yields a nil pointer
and the field access panics (`.error ()`). -/
theorem pressed_untracked_panics :
    (NewMouseState 0).Pressed MouseButton4 ≠ .ok false ∧
      (NewMouseState 0).Pressed MouseButton4 = .error () :=
  ⟨fun h => Except.noConfusion h, rfl⟩

/-- C4 as amended: `Pressed` returns exactly `phase > 0` for every
button present in the map, and fails (nil-pointer panic) rather than
returning false for a button absent from it. -/
theorem pressed_iff_positive (ms : MouseState) (b c : MouseButton)
    (st : mouseButtonState) (h : ms.states b = some st)
    (hc : ms.states c = none) :
    ms.Pressed b = .ok (decide (st.clickCount > 0)) ∧
      ms.Pressed c = .error () := by
  constructor
  · unfold MouseState.Pressed
    rw [h]
  · unfold MouseState.Pressed
    rw [hc]

/-- Witness for the amended C4, on a fresh tracker: tracked left button
reads false, untracked fourth button panics. -/
theorem pressed_iff_positive_witness :
    ((NewMouseState 0).states MouseButtonLeft = some ⟨0, 0⟩ ∧
      (NewMouseState 0).states MouseButton4 = none) ∧
    ((NewMouseState 0).Pressed MouseButtonLeft = .ok false ∧
      (NewMouseState 0).Pressed MouseButton4 = .error ()) :=
  ⟨⟨rfl, rfl⟩,
    pressed_iff_positive (NewMouseState 0) MouseButtonLeft MouseButton4 ⟨0, 0⟩
      rfl rfl⟩

/-- C5 (refuted by the code): `NewMouseState` subscribes under the
address of its own local variable `ms`, while `Dispose` passes the
address of a distinct local variable (its receiver) to
`UnsubscribeID`.  The two tokens being distinct (modelled as 0 at
construction and 1 at disposal), `Dispose` removes nothing: both
handlers remain registered and the event source keeps delivering
events to the tracker. -/
theorem dispose_wrong_token :
    Dispose (newMouseStateSubscribe ⟨[]⟩ 0) 1 = newMouseStateSubscribe ⟨[]⟩ 0 ∧
    (OnMouseUp, 0) ∈ (Dispose (newMouseStateSubscribe ⟨[]⟩ 0) 1).subs ∧
    (OnMouseDown, 0) ∈ (Dispose (newMouseStateSubscribe ⟨[]⟩ 0) 1).subs := by
  refine ⟨by decide, by decide, by decide⟩

/-- Counterexample to C6: a delivered up event carrying an untracked
button identity makes the handler dereference a nil map entry — it
panics instead of returning normally, and so does the down handler. -/
theorem handler_untracked_panics :
    (NewMouseState 0).onMouseUp ⟨MouseButton4⟩ = .error (NewMouseState 0) ∧
    ((NewMouseState 0).onMouseUp ⟨MouseButton4⟩).isOk = false ∧
    ((NewMouseState 0).onMouseDown ⟨MouseButton4⟩ 0).isOk = false :=
  ⟨rfl, rfl, rfl⟩

/-- C6 as amended: both handlers return normally on every event whose
button identity is present in the map (in particular the three tracked
buttons, in every reachable state). -/
theorem handlers_return_on_tracked (ms : MouseState) (b : MouseButton)
    (now : Int) (st : mouseButtonState) (h : ms.states b = some st) :
    (ms.onMouseUp ⟨b⟩).isOk = true ∧ (ms.onMouseDown ⟨b⟩ now).isOk = true := by
  constructor
  · rw [onMouseUp_eq ms ⟨b⟩ st h]
    rfl
  · rw [onMouseDown_eq ms ⟨b⟩ now st h]
    rfl

/-- Witness for the amended C6: both handlers return normally for the
left button on a fresh tracker. -/
theorem handlers_return_on_tracked_witness :
    (NewMouseState 0).states MouseButtonLeft = some ⟨0, 0⟩ ∧
    (((NewMouseState 0).onMouseUp ⟨MouseButtonLeft⟩).isOk = true ∧
      ((NewMouseState 0).onMouseDown ⟨MouseButtonLeft⟩ 5).isOk = true) :=
  ⟨rfl, handlers_return_on_tracked (NewMouseState 0) MouseButtonLeft 5 ⟨0, 0⟩ rfl⟩

/-! ## The phase-range invariant -/

theorem onMouseUp_none (ms : MouseState) (mev : MouseEvent)
    (h : ms.states mev.Button = none) : ms.onMouseUp mev = .error ms := by
  unfold MouseState.onMouseUp
  rw [h]

theorem onMouseDown_none (ms : MouseState) (mev : MouseEvent) (now : Int)
    (h : ms.states mev.Button = none) :
    ms.onMouseDown mev now = .error { ms with lastButton := mev.Button } := by
  unfold MouseState.onMouseDown
  show (match ms.states mev.Button with
    | none => Except.error { ms with lastButton := mev.Button }
    | some st => _) = _
  rw [h]

theorem phaseOK_new (t0 : Int) : phaseOK (NewMouseState t0) := by
  intro b st h
  simp only [NewMouseState] at h
  split at h
  · cases h
    exact Or.inr (Or.inr (Or.inl rfl))
  · exact Option.noConfusion h

theorem phaseOK_up (ms ms' : MouseState) (mev : MouseEvent)
    (hinv : phaseOK ms) (h : ms.onMouseUp mev = .ok ms') : phaseOK ms' := by
  cases hs : ms.states mev.Button with
  | none =>
    rw [onMouseUp_none ms mev hs] at h
    exact Except.noConfusion h
  | some st =>
    rw [onMouseUp_eq ms mev st hs] at h
    by_cases hpos : st.clickCount > 0
    · rw [if_pos hpos] at h
      cases h
      intro b' st' hb'
      rw [setState_states] at hb'
      by_cases hbb : b' = mev.Button
      · rw [if_pos hbb] at hb'
        cases hb'
        show st.clickCount * -1 = -2 ∨ st.clickCount * -1 = -1 ∨
          st.clickCount * -1 = 0 ∨ st.clickCount * -1 = 1 ∨ st.clickCount * -1 = 2
        rcases hinv mev.Button st hs with h5|h5|h5|h5|h5 <;> omega
      · rw [if_neg hbb] at hb'
        exact hinv b' st' hb'
    · rw [if_neg hpos] at h
      cases h
      exact hinv

theorem phaseOK_down (ms ms' : MouseState) (mev : MouseEvent) (now : Int)
    (hinv : phaseOK ms) (h : ms.onMouseDown mev now = .ok ms') : phaseOK ms' := by
  cases hs : ms.states mev.Button with
  | none =>
    rw [onMouseDown_none ms mev now hs] at h
    exact Except.noConfusion h
  | some st =>
    rw [onMouseDown_eq ms mev now st hs] at h
    cases h
    intro b' st' hb'
    rw [setState_states] at hb'
    by_cases hbb : b' = mev.Button
    · rw [if_pos hbb] at hb'
      by_cases hcond : st.clickCount = -1 ∧
          ¬(st.lastClick + ms.DoubleClickDuration < now)
      · rw [if_pos hcond] at hb'
        cases hb'
        exact Or.inr (Or.inr (Or.inr (Or.inr rfl)))
      · rw [if_neg hcond] at hb'
        cases hb'
        exact Or.inr (Or.inr (Or.inr (Or.inl rfl)))
    · rw [if_neg hbb] at hb'
      exact hinv b' st' hb'

theorem run_preserves (es : List Ev) (ms ms' : MouseState)
    (hinv : phaseOK ms) (h : ms.run es = .ok ms') : phaseOK ms' := by
  induction es generalizing ms with
  | nil =>
    unfold MouseState.run at h
    cases h
    exact hinv
  | cons e es ih =>
    unfold MouseState.run at h
    cases hstep : ms.step e with
    | ok ms1 =>
      rw [hstep] at h
      refine ih ms1 ?_ h
      cases e with
      | down b now => exact phaseOK_down ms ms1 ⟨b⟩ now hinv hstep
      | up b => exact phaseOK_up ms ms1 ⟨b⟩ hinv hstep
    | error s =>
      rw [hstep] at h
      exact Except.noConfusion h

/-- C7: every state reachable from a freshly constructed tracker by a
sequence of down/up events (a run that completes without panicking)
has every stored phase in {-2, -1, 0, 1, 2}. -/
theorem reachable_phase_range (t0 : Int) (es : List Ev) (ms : MouseState)
    (h : (NewMouseState t0).run es = .ok ms) : phaseOK ms :=
  run_preserves es (NewMouseState t0) ms (phaseOK_new t0) h

/-- Witness for C7: one down event from a fresh tracker reaches a state
whose phases are in range. -/
theorem reachable_phase_range_witness :
    (NewMouseState 0).run [Ev.down MouseButtonLeft 5] =
      .ok (({ NewMouseState 0 with lastButton := MouseButtonLeft }).setState
        MouseButtonLeft ⟨1, 5⟩) ∧
    phaseOK (({ NewMouseState 0 with lastButton := MouseButtonLeft }).setState
      MouseButtonLeft ⟨1, 5⟩) :=
  ⟨rfl, reachable_phase_range 0 [Ev.down MouseButtonLeft 5] _ rfl⟩

theorem stateOf_ok (s : MouseState) : stateOf (Except.ok s) = s := rfl

theorem stateOf_error (s : MouseState) : stateOf (Except.error s) = s := rfl

/-- C8: after down, up, down within the 300 ms window the left button
sits at phase 2 with `DoubleClicked` and `Pressed` true; after the
further up it sits at phase -2, `DoubleClicked` stays true and
`Pressed` turns false. -/
theorem double_click_scenario :
    scenarioDouble.isOk = true ∧
    (stateOf scenarioDouble).states MouseButtonLeft = some ⟨2, 0⟩ ∧
    (stateOf scenarioDouble).LeftDoubleClicked = .ok true ∧
    (stateOf scenarioDouble).Pressed MouseButtonLeft = .ok true ∧
    scenarioDoubleUp.isOk = true ∧
    (stateOf scenarioDoubleUp).states MouseButtonLeft = some ⟨-2, 0⟩ ∧
    (stateOf scenarioDoubleUp).LeftDoubleClicked = .ok true ∧
    (stateOf scenarioDoubleUp).Pressed MouseButtonLeft = .ok false :=
  ⟨rfl, rfl, rfl, rfl, rfl, rfl, rfl, rfl⟩

/-- C9: `onButtonDown` records `lastButton = mev.Button`
unconditionally — also on the panicking path, since the write precedes
the map dereference — and in the cross-button scenario neither button
reports a double click. -/
theorem lastButton_recorded (ms : MouseState) (mev : MouseEvent) (now : Int) :
    (stateOf (ms.onMouseDown mev now)).lastButton = mev.Button ∧
    scenarioCross.isOk = true ∧
    (stateOf scenarioCross).LeftDoubleClicked = .ok false ∧
    (stateOf scenarioCross).RightDoubleClicked = .ok false := by
  refine ⟨?_, rfl, rfl, rfl⟩
  cases hs : ms.states mev.Button with
  | none =>
    rw [onMouseDown_none ms mev now hs, stateOf_error]
  | some st =>
    rw [onMouseDown_eq ms mev now st hs, stateOf_ok]
    rfl

/-- C10: frame conditions of the two handlers: an event for button a
leaves every other button's record untouched; `onButtonUp` changes
neither `lastButton` nor any `lastClickTime`; and no handler changes
the double-click window or which buttons the map holds — also on the
panicking paths. -/
theorem handlers_frame (ms : MouseState) (a b : MouseButton) (now : Int)
    (hab : b ≠ a) :
    (stateOf (ms.onMouseDown ⟨a⟩ now)).states b = ms.states b ∧
    (stateOf (ms.onMouseUp ⟨a⟩)).states b = ms.states b ∧
    (stateOf (ms.onMouseUp ⟨a⟩)).lastButton = ms.lastButton ∧
    (∀ c stc stc', ms.states c = some stc →
      (stateOf (ms.onMouseUp ⟨a⟩)).states c = some stc' →
      stc'.lastClick = stc.lastClick) ∧
    (stateOf (ms.onMouseDown ⟨a⟩ now)).DoubleClickDuration =
      ms.DoubleClickDuration ∧
    (stateOf (ms.onMouseUp ⟨a⟩)).DoubleClickDuration =
      ms.DoubleClickDuration ∧
    (∀ c, ((stateOf (ms.onMouseDown ⟨a⟩ now)).states c).isSome =
      (ms.states c).isSome) ∧
    (∀ c, ((stateOf (ms.onMouseUp ⟨a⟩)).states c).isSome =
      (ms.states c).isSome) := by
  refine ⟨?_, ?_, ?_, ?_, ?_, ?_, ?_, ?_⟩
  · cases hs : ms.states a with
    | none => rw [onMouseDown_none ms ⟨a⟩ now hs, stateOf_error]
    | some st =>
      rw [onMouseDown_eq ms ⟨a⟩ now st hs, stateOf_ok,
        setState_states, if_neg hab]
  · cases hs : ms.states a with
    | none => rw [onMouseUp_none ms ⟨a⟩ hs, stateOf_error]
    | some st =>
      rw [onMouseUp_eq ms ⟨a⟩ st hs, stateOf_ok]
      by_cases hpos : st.clickCount > 0
      · rw [if_pos hpos, setState_states, if_neg hab]
      · rw [if_neg hpos]
  · cases hs : ms.states a with
    | none => rw [onMouseUp_none ms ⟨a⟩ hs, stateOf_error]
    | some st =>
      rw [onMouseUp_eq ms ⟨a⟩ st hs, stateOf_ok]
      by_cases hpos : st.clickCount > 0
      · rw [if_pos hpos, setState_lastButton]
      · rw [if_neg hpos]
  · intro c stc stc' hc hc'
    cases hs : ms.states a with
    | none =>
      rw [onMouseUp_none ms ⟨a⟩ hs, stateOf_error, hc] at hc'
      cases hc'
      rfl
    | some st =>
      rw [onMouseUp_eq ms ⟨a⟩ st hs, stateOf_ok] at hc'
      by_cases hpos : st.clickCount > 0
      · rw [if_pos hpos, setState_states] at hc'
        by_cases hca : c = a
        · rw [if_pos hca] at hc'
          cases hc'
          subst hca
          rw [hs] at hc
          cases hc
          rfl
        · rw [if_neg hca, hc] at hc'
          cases hc'
          rfl
      · rw [if_neg hpos, hc] at hc'
        cases hc'
        rfl
  · cases hs : ms.states a with
    | none => rw [onMouseDown_none ms ⟨a⟩ now hs, stateOf_error]
    | some st =>
      rw [onMouseDown_eq ms ⟨a⟩ now st hs, stateOf_ok, setState_duration]
  · cases hs : ms.states a with
    | none => rw [onMouseUp_none ms ⟨a⟩ hs, stateOf_error]
    | some st =>
      rw [onMouseUp_eq ms ⟨a⟩ st hs, stateOf_ok]
      by_cases hpos : st.clickCount > 0
      · rw [if_pos hpos, setState_duration]
      · rw [if_neg hpos]
  · intro c
    cases hs : ms.states a with
    | none => rw [onMouseDown_none ms ⟨a⟩ now hs, stateOf_error]
    | some st =>
      rw [onMouseDown_eq ms ⟨a⟩ now st hs, stateOf_ok, setState_states]
      by_cases hca : c = a
      · rw [if_pos hca, hca, hs]
        rfl
      · rw [if_neg hca]
  · intro c
    cases hs : ms.states a with
    | none => rw [onMouseUp_none ms ⟨a⟩ hs, stateOf_error]
    | some st =>
      rw [onMouseUp_eq ms ⟨a⟩ st hs, stateOf_ok]
      by_cases hpos : st.clickCount > 0
      · rw [if_pos hpos, setState_states]
        by_cases hca : c = a
        · rw [if_pos hca, hca, hs]
          rfl
        · rw [if_neg hca]
      · rw [if_neg hpos]

/-- Witness for C10: on a fresh tracker a left-button down leaves the
right button's record untouched. -/
theorem handlers_frame_witness :
    MouseButtonRight ≠ MouseButtonLeft ∧
    (stateOf ((NewMouseState 0).onMouseDown ⟨MouseButtonLeft⟩ 5)).states
      MouseButtonRight = (NewMouseState 0).states MouseButtonRight :=
  ⟨by decide,
    (handlers_frame (NewMouseState 0) MouseButtonLeft MouseButtonRight 5
      (by decide)).1⟩
